import Mathlib

/-
  Verification of the genotype-phenotype map core (Zsailer/gpmap).

  Shallow embedding of `src/seqspace/gpm.py` (class GenotypePhenotypeMap and
  class Sample) and `src/gpm/base.py` (class BaseMap).  Numpy arrays are
  modelled as Lean lists; a Python `None`-able attribute is an `Option`
  field; a Python `raise` is `Except.error`.  Helpers that live in modules
  of this repository not present under `src/` (seqspace/utils.py,
  seqspace/errors.py, seqspace/binary.py, seqspace/raw.py and the `map`
  method of seqspace/base.py) are modelled from the spec and marked
  `Modelled from the spec:` in their doc comments.
-/

set_option maxHeartbeats 1000000

namespace Gpm

variable {α : Type} {β : Type}

/-- A genotype: a fixed-length sequence over a finite alphabet
(gpm.py stores numpy arrays of strings; a string is modelled as a
list of characters). -/
abbrev Genotype := List Char

/-- The arguments the core hands to `seqspace.errors.StandardDeviationMap`
(gpm.py lines 378, 388, 401, 415, 427).  The class itself is outside
`src/`; the spec treats it as an external `UncertaintyView` constructed
from `(phenotypes, stdeviations, log_transform, logbase)`, so the
embedding records exactly those constructor arguments. -/
structure StandardDeviationMap (α : Type) where
  phenotypes : List α
  stdeviations : List α
  log_transform : Bool
  logbase : α → α

/-- The arguments the core hands to `seqspace.errors.StandardErrorMap`
(gpm.py lines 382, 392, 405, 419, 430); same external interface as
`StandardDeviationMap` plus `n_replicates`. -/
structure StandardErrorMap (α : Type) where
  phenotypes : List α
  stdeviations : List α
  log_transform : Bool
  n_replicates : Nat
  logbase : α → α

/-- Modelled from the spec: the uncertainty views expose an `upper` bound
array "aligned to the input phenotypes" (spec section 6); the computation
lives in seqspace/errors.py which is not under `src/`.  Only the alignment
of `upper` is ever used by the core modelled here, so the bound is taken
to be phenotype plus standard deviation, the linear-space reduction the
spec gives in section 8. -/
def StandardErrorMap.upper [Add α] (v : StandardErrorMap α) : List α :=
  List.zipWith (fun p s => p + s) v.phenotypes v.stdeviations

/-- The `RawMap` view (seqspace/raw.py is not under `src/`; per the spec it
only "holds the untransformed genotype/phenotype/uncertainty arrays", and
every field written to it is written by code in gpm.py, so the structure
just holds those fields).  A fresh `RawMap(self)` has no stdeviations or
uncertainty attributes yet (`none`). -/
structure RawMap (α : Type) where
  genotypes : List Genotype
  phenotypes : List α
  stdeviations : Option (List α)
  std : Option (StandardDeviationMap α)
  err : Option (StandardErrorMap α)

/-- The `BinaryMap` view, as seen from the core: gpm.py only writes its
`phenotypes`, `std` and `err` attributes (the binary encoding itself is
external and unused by the claims). -/
structure BinaryMap (α : Type) where
  phenotypes : List α
  std : Option (StandardDeviationMap α)
  err : Option (StandardErrorMap α)

/-- The state of a `GenotypePhenotypeMap` object: one field per Python
attribute the core reads or writes.  `n`, `length` and `indices` are the
stored values set by the genotypes setter (gpm.py lines 270-276). -/
structure GPMState (α : Type) where
  wildtype : Genotype
  genotypes : List Genotype
  n : Nat
  length : Nat
  indices : List Nat
  mutations : List (List Char)
  log_transform : Bool
  logbase : α → α
  phenotypes : List α
  n_replicates : Nat
  stdeviations : Option (List α)
  Raw : Option (RawMap α)
  Binary : Option (BinaryMap α)
  missing_genotypes : List Genotype
  std : Option (StandardDeviationMap α)
  err : Option (StandardErrorMap α)

/-- The `complete_genotypes` property (gpm.py line 244): concatenation of
the observed and the missing genotypes. -/
def complete_genotypes (st : GPMState α) : List Genotype :=
  st.genotypes ++ st.missing_genotypes

/-- Lookup in a Python dict modelled as an association list (a real dict
has unique keys, so which duplicate wins is irrelevant here; the first
binding is used). -/
def dictLookup (d : List (Genotype × α)) (g : Genotype) : Option α :=
  (d.find? (fun kv => kv.1 == g)).map (fun kv => kv.2)

/-- The loop of `BaseMap._if_dict`, one step per index `i`. -/
def if_dict_go (st : GPMState α) (d : List (Genotype × α)) :
    List Nat → Except String (List α)
  | [] => Except.ok []
  | i :: rest =>
    match st.genotypes.get? i with
    | none => Except.error "IndexError: list index out of range"
    | some g =>
      match dictLookup d g with
      | none => Except.error "KeyError"
      | some v =>
        match if_dict_go st d rest with
        | Except.error e => Except.error e
        | Except.ok vs => Except.ok (v :: vs)

/-- `BaseMap._if_dict` (src/gpm/base.py lines 23-30): fill an array of
`self._n` elements, element `i` taken from the dictionary at key
`self._genotypes[i]`; a missing key raises KeyError, an index past the
end of the genotype list raises IndexError. -/
def if_dict (st : GPMState α) (d : List (Genotype × α)) : Except String (List α) :=
  if_dict_go st d (List.range st.n)

/-- The two input forms the phenotypes setter accepts (gpm.py lines
319-325): a positional array, or a dict keyed by genotype. -/
inductive PhenotypesInput (α : Type) where
  | arr (values : List α)
  | dict (d : List (Genotype × α))

/-- The phenotypes setter (gpm.py lines 308-340): resolve the input (dict
via `_if_dict`, array after a length check), then if `log_transform` is
true snapshot a fresh `RawMap` holding the untransformed values and
overwrite the phenotypes with `logbase` of them, and finally mirror the
stored phenotypes onto `Binary` when that attribute exists. -/
def setPhenotypes (st : GPMState α) (input : PhenotypesInput α) :
    Except String (GPMState α) :=
  let resolved : Except String (List α) :=
    match input with
    | .dict d => if_dict st d
    | .arr v =>
      if v.length ≠ st.genotypes.length then
        Except.error "Number of phenotypes does not equal number of genotypes."
      else Except.ok v
  match resolved with
  | Except.error e => Except.error e
  | Except.ok ph =>
    let st1 :=
      if st.log_transform then
        { st with
          Raw := some { genotypes := st.genotypes, phenotypes := ph,
                        stdeviations := none, std := none, err := none },
          phenotypes := ph.map st.logbase }
      else { st with phenotypes := ph }
    Except.ok
      (match st1.Binary with
       | some b => { st1 with Binary := some { b with phenotypes := st1.phenotypes } }
       | none => st1)

/-- The genotypes setter (gpm.py lines 270-276): store the list and
re-derive `n`, `length` (of the first genotype; IndexError when the list
is empty) and `indices`.  No other state is touched. -/
def setGenotypes (st : GPMState α) (gs : List Genotype) :
    Except String (GPMState α) :=
  match gs with
  | [] => Except.error "IndexError: list index out of range"
  | g0 :: rest =>
    Except.ok { st with
      genotypes := g0 :: rest,
      n := (g0 :: rest).length,
      length := g0.length,
      indices := List.range (g0 :: rest).length }

/-- `GenotypePhenotypeMap._construct_errors` (gpm.py lines 363-441).  With
stdeviations present and `log_transform` true, the code hands
`self.phenotypes` (by then already log-transformed) to `Raw.std`/`Raw.err`
with `log_transform=False`, and `self.Raw.phenotypes` (the untransformed
values) to the map-level and Binary `std`/`err` with
`log_transform=self.log_transform`; a missing `Raw` raises.  Without
stdeviations every uncertainty attribute is set to None. -/
def construct_errors (st : GPMState α) (stdevs : Option (List α)) :
    Except String (GPMState α) :=
  match stdevs with
  | some s =>
    let st0 := { st with stdeviations := some s }
    if st0.log_transform then
      match st0.Raw with
      | none =>
        Except.error "A RawMap must be initialized as an attribute before we can transform the errors."
      | some raw =>
        let st1 := { st0 with
          Raw := some { raw with
            stdeviations := some s,
            std := some { phenotypes := st0.phenotypes, stdeviations := s,
                          log_transform := false, logbase := st0.logbase },
            err := some { phenotypes := st0.phenotypes, stdeviations := s,
                          log_transform := false, n_replicates := st0.n_replicates,
                          logbase := st0.logbase } },
          std := some { phenotypes := raw.phenotypes, stdeviations := s,
                        log_transform := st0.log_transform, logbase := st0.logbase },
          err := some { phenotypes := raw.phenotypes, stdeviations := s,
                        log_transform := st0.log_transform,
                        n_replicates := st0.n_replicates, logbase := st0.logbase } }
        Except.ok
          (match st1.Binary with
           | some b => { st1 with Binary := some { b with
               std := some { phenotypes := raw.phenotypes, stdeviations := s,
                             log_transform := st0.log_transform, logbase := st0.logbase },
               err := some { phenotypes := raw.phenotypes, stdeviations := s,
                             log_transform := st0.log_transform,
                             n_replicates := st0.n_replicates,
                             logbase := st0.logbase } } }
           | none => st1)
    else
      let st1 := { st0 with
        std := some { phenotypes := st0.phenotypes, stdeviations := s,
                      log_transform := st0.log_transform, logbase := st0.logbase },
        err := some { phenotypes := st0.phenotypes, stdeviations := s,
                      log_transform := st0.log_transform,
                      n_replicates := st0.n_replicates, logbase := st0.logbase } }
      Except.ok
        (match st1.Binary with
         | some b => { st1 with Binary := some { b with
             std := some { phenotypes := st0.phenotypes, stdeviations := s,
                           log_transform := st0.log_transform, logbase := st0.logbase },
             err := some { phenotypes := st0.phenotypes, stdeviations := s,
                           log_transform := st0.log_transform,
                           n_replicates := st0.n_replicates,
                           logbase := st0.logbase } } }
         | none => st1)
  | none =>
    if st.log_transform then
      match st.Raw with
      | none => Except.error "AttributeError: no attribute Raw"
      | some raw =>
        Except.ok { st with Raw := some { raw with stdeviations := none },
                            stdeviations := none }
    else Except.ok { st with stdeviations := none }

/-- Modelled from the spec: `seqspace.utils.hamming_distance` is not under
`src/`; per spec section 6 it counts the differing sites of two aligned
sequences. -/
def hamming_distance (g1 g2 : Genotype) : Nat :=
  (List.zipWith (fun a b => if a = b then 0 else 1) g1 g2).sum

/-- Modelled from the spec: `seqspace.utils.binary_mutations_map` is not
under `src/`; per spec sections 4.1/4.5 and the section-8 example it maps
each site to the alphabet formed by the two sequences at that site (one
symbol when they agree, the wildtype-then-mutant pair when they differ). -/
def binary_mutations_map (g1 g2 : Genotype) : List (List Char) :=
  List.zipWith (fun a b => if a = b then [a] else [a, b]) g1 g2

/-- Modelled from the spec: `seqspace.utils.farthest_genotype` is not under
`src/`; per spec section 4.1 it is the observed genotype at maximal
Hamming distance from the reference. -/
def farthest_genotype (wildtype : Genotype) (gs : List Genotype) : Genotype :=
  gs.foldl
    (fun best g =>
      if hamming_distance wildtype best < hamming_distance wildtype g then g else best)
    wildtype

/-- Modelled from the spec: `seqspace.utils.encode_mutations` composed with
`seqspace.utils.construct_genotypes` (neither is under `src/`); per spec
sections 4.5 and 6 the result is the complete combinatorial genotype set
implied by a per-site alphabet map: every sequence formed by choosing one
allowed symbol per site, sites varying independently, in site order. -/
def construct_genotypes : List (List Char) → List Genotype
  | [] => [[]]
  | alphabet :: rest =>
    alphabet.flatMap (fun c => (construct_genotypes rest).map (fun t => c :: t))

/-- `GenotypePhenotypeMap.__init__` (gpm.py lines 107-152).  Mutations
default to the binary wildtype/farthest map; the genotypes setter runs
(IndexError on an empty list), then the phenotypes setter (with no Binary
attribute yet), then the `BinaryMap` is built (modelled from the spec: it
stores the map's current phenotypes and records as `missing_genotypes` the
members of the complete combinatorial space implied by `mutations` that
are absent from `genotypes`), and finally `_construct_errors` runs. -/
def construct (wildtype : Genotype) (gs : List Genotype) (ps : List α)
    (stdevs : Option (List α)) (log_transform : Bool)
    (mutations : Option (List (List Char))) (n_replicates : Nat)
    (logbase : α → α) : Except String (GPMState α) :=
  let muts :=
    match mutations with
    | some m => m
    | none => binary_mutations_map wildtype (farthest_genotype wildtype gs)
  match gs with
  | [] => Except.error "IndexError: list index out of range"
  | g0 :: rest =>
    let st0 : GPMState α := {
      wildtype := wildtype, genotypes := g0 :: rest,
      n := (g0 :: rest).length, length := g0.length,
      indices := List.range (g0 :: rest).length,
      mutations := muts, log_transform := log_transform, logbase := logbase,
      phenotypes := [], n_replicates := n_replicates, stdeviations := none,
      Raw := none, Binary := none,
      missing_genotypes := [], std := none, err := none }
    match setPhenotypes st0 (PhenotypesInput.arr ps) with
    | Except.error e => Except.error e
    | Except.ok st1 =>
      let st2 := { st1 with
        Binary := some { phenotypes := st1.phenotypes, std := none, err := none },
        missing_genotypes :=
          (construct_genotypes muts).filter (fun g => decide (g ∉ (g0 :: rest))) }
      construct_errors st2 stdevs

/-- The list comprehension `[mapping[g] for g in genotypes]` of
`subspace` (gpm.py line 533): resolve every genotype through the lookup,
raising KeyError at the first absent one. -/
def resolvePhenotypes (mapping : Genotype → Option α) :
    List Genotype → Except String (List α)
  | [] => Except.ok []
  | g :: rest =>
    match mapping g with
    | none => Except.error "KeyError"
    | some v =>
      match resolvePhenotypes mapping rest with
      | Except.error e => Except.error e
      | Except.ok vs => Except.ok (v :: vs)

/-- `GenotypePhenotypeMap.subspace` (gpm.py lines 514-543).  The
genotype-to-phenotype lookup `self.map(...)` is a method of
seqspace/base.py which is not under `src/`; per the spec it is the
dictionary from the genotype array to the chosen phenotype array, modelled
here by zipping the two lists. -/
def subspace (st : GPMState α) (genotype1 genotype2 : Genotype) :
    Except String (GPMState α) :=
  let mutations := binary_mutations_map genotype1 genotype2
  let lookupE : Except String ((Genotype → Option α) × Option (List α)) :=
    if st.log_transform then
      match st.Raw with
      | none => Except.error "AttributeError: no attribute Raw"
      | some raw =>
        Except.ok (dictLookup (st.genotypes.zip raw.phenotypes), raw.stdeviations)
    else
      Except.ok (dictLookup (st.genotypes.zip st.phenotypes), st.stdeviations)
  match lookupE with
  | Except.error e => Except.error e
  | Except.ok (mapping, stdevs) =>
    match resolvePhenotypes mapping (construct_genotypes mutations) with
    | Except.error e => Except.error e
    | Except.ok phenotypes =>
      construct genotype1 (construct_genotypes mutations) phenotypes stdevs
        st.log_transform (some mutations) st.n_replicates st.logbase

/-- A numpy array of one or two dimensions, as handed to `Sample`.  The
try-branch of `sample` builds two-dimensional arrays, the degenerate
except-branch builds one-dimensional ones. -/
inductive NpArray (β : Type) where
  | one (values : List β)
  | two (rows : List (List β))
deriving DecidableEq

/-- Numpy semantics of `arr[:, 0]` (used by `Sample.__init__`, gpm.py
line 54): the first column of a two-dimensional array; a row of width
zero, or a one-dimensional array indexed with two indices, raises
IndexError. -/
def col0 : NpArray β → Except String (List β)
  | .one _ => Except.error "IndexError: too many indices for array"
  | .two [] => Except.ok []
  | .two ([] :: _) =>
    Except.error "IndexError: index 0 is out of bounds for axis 1 with size 0"
  | .two ((x :: _) :: rest) =>
    match col0 (NpArray.two rest) with
    | Except.error e => Except.error e
    | Except.ok xs => Except.ok (x :: xs)

/-- Numpy semantics of `np.mean(arr, axis=1)` (gpm.py line 55): the row
means of a two-dimensional array; axis 1 of a one-dimensional array is out
of bounds.  (For an empty row numpy yields nan with a warning, not an
exception; the model's division by zero likewise yields a junk value.) -/
def meanAxis1 [Field α] : NpArray α → Except String (List α)
  | .one _ => Except.error "AxisError: axis 1 is out of bounds for array of dimension 1"
  | .two rows => Except.ok (rows.map (fun row => row.sum / (row.length : α)))

/-- Numpy semantics of `np.std(arr, ddof=1, axis=1)` (gpm.py line 56): the
Bessel-corrected row standard deviations; `sqrtFn` stands for numpy's
square root (external numeric primitive).  As with `meanAxis1`, a
single-column row yields a junk value (numpy: nan plus warning), not an
exception. -/
def stdAxis1 [Field α] (sqrtFn : α → α) : NpArray α → Except String (List α)
  | .one _ => Except.error "AxisError: axis 1 is out of bounds for array of dimension 1"
  | .two rows =>
    Except.ok (rows.map (fun row =>
      let mu := row.sum / (row.length : α)
      sqrtFn ((row.map (fun x => (x - mu) ^ 2)).sum / ((row.length : α) - 1))))

/-- The `Sample` value object (gpm.py lines 47-57). -/
structure Sample (α : Type) where
  replicate_genotypes : NpArray Genotype
  replicate_phenotypes : NpArray α
  genotypes : List Genotype
  phenotypes : List α
  stdeviations : List α
  indices : List Nat
deriving DecidableEq

/-- `Sample.__init__` (gpm.py lines 49-57): store the replicate matrices,
then compute `replicate_genotypes[:, 0]`, the row means and the
Bessel-corrected row standard deviations, in that order; each of those
numpy operations raises on a one-dimensional input. -/
def mkSample [Field α] (sqrtFn : α → α) (rg : NpArray Genotype) (rp : NpArray α)
    (idxs : List Nat) : Except String (Sample α) :=
  match col0 rg with
  | Except.error e => Except.error e
  | Except.ok g0 =>
    match meanAxis1 rp with
    | Except.error e => Except.error e
    | Except.ok mean =>
      match stdAxis1 sqrtFn rp with
      | Except.error e => Except.error e
      | Except.ok sd =>
        Except.ok { replicate_genotypes := rg, replicate_phenotypes := rp,
                    genotypes := g0, phenotypes := mean, stdeviations := sd,
                    indices := idxs }

/-- The body of the for-loop in `sample`'s try block (gpm.py lines
487-501), one recursion step per selected index: read the genotype, the
upper error bound and the centre phenotype at that index (any failed
access is the exception the surrounding `except:` catches, so the whole
computation collapses to `none`), and build the replicate genotype row and
the row of normal draws `stdevs[index] * z + center`; `z i j` stands for
the j-th `np.random.randn` draw of row i. -/
def sampleRowsAux [Mul α] [Add α] (gs : List Genotype) (uppers centers : List α)
    (n_samples : Nat) (z : Nat → Nat → α) :
    Nat → List Nat → Option (List (List Genotype) × List (List α))
  | _, [] => some ([], [])
  | i, index :: rest =>
    match gs.get? index, uppers.get? index, centers.get? index with
    | some seq, some u, some c =>
      match sampleRowsAux gs uppers centers n_samples z (i + 1) rest with
      | none => none
      | some (rg, rp) =>
        some (List.replicate n_samples seq :: rg,
              (List.range n_samples).map (fun j => u * z i j + c) :: rp)
    | _, _, _ => none

/-- The try block of `sample` (gpm.py lines 485-501): pick the error
distribution (`self.Raw.err.upper` around `self.Raw.phenotypes` when
log-transformed, else `self.err.upper` around `self.phenotypes`) and run
the sampling loop; a missing attribute anywhere is the exception the
`except:` catches (`none`). -/
def sampleRows [Mul α] [Add α] (st : GPMState α) (idxs : List Nat)
    (n_samples : Nat) (z : Nat → Nat → α) :
    Option (List (List Genotype) × List (List α)) :=
  if st.log_transform then
    match st.Raw with
    | none => none
    | some raw =>
      match raw.err with
      | none => none
      | some e => sampleRowsAux st.genotypes e.upper raw.phenotypes n_samples z 0 idxs
  else
    match st.err with
    | none => none
    | some e => sampleRowsAux st.genotypes e.upper st.phenotypes n_samples z 0 idxs

/-- The list comprehension `[mapping[g] for g in genotypes]` of `sample`'s
genotypes-given path (gpm.py line 478): resolve each requested genotype to
its index, raising KeyError at the first unknown one. -/
def resolveIndices (mapping : Genotype → Option Nat) :
    List Genotype → Except String (List Nat)
  | [] => Except.ok []
  | g :: rest =>
    match mapping g with
    | none => Except.error "KeyError"
    | some i =>
      match resolveIndices mapping rest with
      | Except.error e => Except.error e
      | Except.ok is' => Except.ok (i :: is')

/-- The list comprehensions of `sample`'s degenerate except-branch (gpm.py
lines 506-507): the recorded values at the selected indices (an index past
the end would raise, uncaught, but cannot occur for indices drawn from
`range(n)`). -/
def getRecorded (l : List β) : List Nat → Option (List β)
  | [] => some []
  | i :: rest =>
    match l.get? i, getRecorded l rest with
    | some x, some xs => some (x :: xs)
    | _, _ => none

/-- `GenotypePhenotypeMap.sample` (gpm.py lines 449-511).  `choiceFn n k`
stands for `np.sort(np.random.choice(range(n), size=k, replace=False))`
(the randomness oracle), `z` for `np.random.randn`, `sqrtFn` for numpy's
square root.  With `genotypes=None` the fraction is range-checked first,
`frac_length = int(fraction * n)` indices are drawn, and with
`derived=True` the last drawn index is overwritten with `n-1` — numpy's
`random_indices[-1]` raises IndexError when the drawn array is empty.
When the try block fails (no error distribution), `n_samples != 1` raises,
else the recorded values at the selected indices are packed into
one-dimensional arrays and handed to `Sample`. -/
def sample [Field α] (st : GPMState α) (n_samples : Nat)
    (genotypesArg : Option (List Genotype)) (fraction : ℚ) (derived : Bool)
    (choiceFn : Nat → Nat → List Nat) (z : Nat → Nat → α) (sqrtFn : α → α) :
    Except String (Sample α) :=
  let idxE : Except String (List Nat) :=
    match genotypesArg with
    | none =>
      if fraction < 0 ∨ 1 < fraction then Except.error "fraction is invalid."
      else
        let frac_length := (⌊fraction * (st.n : ℚ)⌋).toNat
        let random_indices := choiceFn st.n frac_length
        if derived then
          match random_indices with
          | [] => Except.error "IndexError: index -1 is out of bounds for axis 0 with size 0"
          | _ => Except.ok (random_indices.dropLast ++ [st.n - 1])
        else Except.ok random_indices
    | some gsel => resolveIndices (dictLookup (st.genotypes.zip st.indices)) gsel
  match idxE with
  | Except.error e => Except.error e
  | Except.ok random_indices =>
    match sampleRows st random_indices n_samples z with
    | some (rg, rp) => mkSample sqrtFn (NpArray.two rg) (NpArray.two rp) random_indices
    | none =>
      if n_samples ≠ 1 then
        Except.error "Won't create samples if sample error is not given."
      else
        match getRecorded st.genotypes random_indices,
              getRecorded st.phenotypes random_indices with
        | some g1, some p1 =>
          mkSample sqrtFn (NpArray.one g1) (NpArray.one p1) random_indices
        | _, _ => Except.error "IndexError: list index out of range"

/-! Reduction helpers for `Except`. -/

theorem ebind_ok {γ : Type} (a : β) (f : β → Except String γ) :
    (Except.ok a : Except String β).bind f = f a := rfl

theorem ebind_error {γ : Type} (e : String) (f : β → Except String γ) :
    (Except.error e : Except String β).bind f = Except.error e := rfl

theorem emap_ok {γ : Type} (a : β) (f : β → γ) :
    (Except.ok a : Except String β).map f = Except.ok (f a) := rfl

theorem emap_error {γ : Type} (e : String) (f : β → γ) :
    (Except.error e : Except String β).map f = Except.error e := rfl

/-!  Characterization of `construct`: the exact state produced for each of
the four configurations (log transform on or off, stdeviations present or
absent), provided the phenotype array matches the genotype count.  -/

/-- The missing genotypes recorded at construction: members of the complete
combinatorial space implied by the mutation alphabets that are absent from
the observed genotypes. -/
def missingOf (muts : List (List Char)) (gs : List Genotype) : List Genotype :=
  (construct_genotypes muts).filter (fun g => decide (g ∉ gs))

theorem construct_nolog_none (wt g0 : Genotype) (gr : List Genotype) (ps : List α)
    (muts : List (List Char)) (nr : Nat) (f : α → α)
    (hlen : ps.length = (g0 :: gr).length) :
    construct wt (g0 :: gr) ps none false (some muts) nr f = Except.ok
      { wildtype := wt, genotypes := g0 :: gr, n := (g0 :: gr).length,
        length := g0.length, indices := List.range (g0 :: gr).length,
        mutations := muts, log_transform := false, logbase := f,
        phenotypes := ps, n_replicates := nr, stdeviations := none,
        Raw := none,
        Binary := some { phenotypes := ps, std := none, err := none },
        missing_genotypes := missingOf muts (g0 :: gr),
        std := none, err := none } := by
  simp [construct, setPhenotypes, construct_errors, hlen, missingOf]

theorem construct_nolog_some (wt g0 : Genotype) (gr : List Genotype) (ps s : List α)
    (muts : List (List Char)) (nr : Nat) (f : α → α)
    (hlen : ps.length = (g0 :: gr).length) :
    construct wt (g0 :: gr) ps (some s) false (some muts) nr f = Except.ok
      { wildtype := wt, genotypes := g0 :: gr, n := (g0 :: gr).length,
        length := g0.length, indices := List.range (g0 :: gr).length,
        mutations := muts, log_transform := false, logbase := f,
        phenotypes := ps, n_replicates := nr, stdeviations := some s,
        Raw := none,
        Binary := some
          { phenotypes := ps,
            std := some { phenotypes := ps, stdeviations := s,
                          log_transform := false, logbase := f },
            err := some { phenotypes := ps, stdeviations := s,
                          log_transform := false, n_replicates := nr, logbase := f } },
        missing_genotypes := missingOf muts (g0 :: gr),
        std := some { phenotypes := ps, stdeviations := s,
                      log_transform := false, logbase := f },
        err := some { phenotypes := ps, stdeviations := s,
                      log_transform := false, n_replicates := nr, logbase := f } } := by
  simp [construct, setPhenotypes, construct_errors, hlen, missingOf]

theorem construct_log_none (wt g0 : Genotype) (gr : List Genotype) (ps : List α)
    (muts : List (List Char)) (nr : Nat) (f : α → α)
    (hlen : ps.length = (g0 :: gr).length) :
    construct wt (g0 :: gr) ps none true (some muts) nr f = Except.ok
      { wildtype := wt, genotypes := g0 :: gr, n := (g0 :: gr).length,
        length := g0.length, indices := List.range (g0 :: gr).length,
        mutations := muts, log_transform := true, logbase := f,
        phenotypes := ps.map f, n_replicates := nr, stdeviations := none,
        Raw := some { genotypes := g0 :: gr, phenotypes := ps,
                      stdeviations := none, std := none, err := none },
        Binary := some { phenotypes := ps.map f, std := none, err := none },
        missing_genotypes := missingOf muts (g0 :: gr),
        std := none, err := none } := by
  simp [construct, setPhenotypes, construct_errors, hlen, missingOf]

theorem construct_log_some (wt g0 : Genotype) (gr : List Genotype) (ps s : List α)
    (muts : List (List Char)) (nr : Nat) (f : α → α)
    (hlen : ps.length = (g0 :: gr).length) :
    construct wt (g0 :: gr) ps (some s) true (some muts) nr f = Except.ok
      { wildtype := wt, genotypes := g0 :: gr, n := (g0 :: gr).length,
        length := g0.length, indices := List.range (g0 :: gr).length,
        mutations := muts, log_transform := true, logbase := f,
        phenotypes := ps.map f, n_replicates := nr, stdeviations := some s,
        Raw := some
          { genotypes := g0 :: gr, phenotypes := ps, stdeviations := some s,
            std := some { phenotypes := ps.map f, stdeviations := s,
                          log_transform := false, logbase := f },
            err := some { phenotypes := ps.map f, stdeviations := s,
                          log_transform := false, n_replicates := nr, logbase := f } },
        Binary := some
          { phenotypes := ps.map f,
            std := some { phenotypes := ps, stdeviations := s,
                          log_transform := true, logbase := f },
            err := some { phenotypes := ps, stdeviations := s,
                          log_transform := true, n_replicates := nr, logbase := f } },
        missing_genotypes := missingOf muts (g0 :: gr),
        std := some { phenotypes := ps, stdeviations := s,
                      log_transform := true, logbase := f },
        err := some { phenotypes := ps, stdeviations := s,
                      log_transform := true, n_replicates := nr, logbase := f } } := by
  simp [construct, setPhenotypes, construct_errors, hlen, missingOf]

theorem construct_ok_n (wt g0 : Genotype) (gr : List Genotype) (ps : List α)
    (stdevs : Option (List α)) (ltf : Bool) (muts : List (List Char)) (nr : Nat)
    (f : α → α) (hlen : ps.length = (g0 :: gr).length) :
    ∃ st, construct wt (g0 :: gr) ps stdevs ltf (some muts) nr f = Except.ok st
      ∧ st.n = (g0 :: gr).length := by
  rcases ltf with _ | _ <;> rcases stdevs with _ | s
  · exact ⟨_, construct_nolog_none wt g0 gr ps muts nr f hlen, rfl⟩
  · exact ⟨_, construct_nolog_some wt g0 gr ps s muts nr f hlen, rfl⟩
  · exact ⟨_, construct_log_none wt g0 gr ps muts nr f hlen, rfl⟩
  · exact ⟨_, construct_log_some wt g0 gr ps s muts nr f hlen, rfl⟩

/-! Reduction lemmas for `sample`. -/

theorem sample_fraction_invalid [Field α] (st : GPMState α) (ns : Nat) (fraction : ℚ)
    (derived : Bool) (choiceFn : Nat → Nat → List Nat) (z : Nat → Nat → α)
    (sqrtFn : α → α) (hfrac : fraction < 0 ∨ 1 < fraction) :
    sample st ns none fraction derived choiceFn z sqrtFn =
      Except.error "fraction is invalid." := by
  simp [sample, hfrac]

theorem sample_empty_choice [Field α] (st : GPMState α) (ns : Nat) (fraction : ℚ)
    (choiceFn : Nat → Nat → List Nat) (z : Nat → Nat → α) (sqrtFn : α → α)
    (h0 : ¬(fraction < 0 ∨ 1 < fraction))
    (hch : choiceFn st.n ((⌊fraction * (st.n : ℚ)⌋).toNat) = []) :
    sample st ns none fraction true choiceFn z sqrtFn =
      Except.error "IndexError: index -1 is out of bounds for axis 0 with size 0" := by
  simp [sample, h0, hch]

/-! The claims. -/

/-- C1: the claim says that for a map built with `log_transform=true` and a
stdeviations array, `Raw.std`/`Raw.err` are built from the *raw*
(untransformed) phenotypes with `log_transform=false`, while the map-level
`std`/`err` are built from the raw phenotypes with `log_transform=true`,
all four fed the same raw stdeviations.  Evaluating the code at a concrete
input shows the second and third parts hold, but `Raw.std`/`Raw.err` are
in fact built from `self.phenotypes`, which at that point already holds
the log-transformed values (gpm.py lines 378-385 run after the phenotypes
setter has overwritten `self._phenotypes` with `logbase(...)`): their
phenotype argument is `[logb 10 10, logb 10 100]`, not the raw
`[10, 100]`. -/
theorem c1_raw_uncertainty_views_get_transformed_phenotypes :
    ((construct (['A'] : Genotype) [['A'], ['T']] [(10 : ℝ), 100] (some [1, 2]) true
        (some [['A', 'T']]) 1 (Real.logb 10)).map
      (fun st =>
        (st.Raw.map (fun r =>
            (r.std.map (fun v => (v.phenotypes, v.log_transform, v.stdeviations)),
             r.err.map (fun v => (v.phenotypes, v.log_transform, v.stdeviations)))),
         st.std.map (fun v => (v.phenotypes, v.log_transform, v.stdeviations)),
         st.err.map (fun v => (v.phenotypes, v.log_transform, v.stdeviations)))))
    = Except.ok
        (some (some ([Real.logb 10 10, Real.logb 10 100], false, [1, 2]),
               some ([Real.logb 10 10, Real.logb 10 100], false, [1, 2])),
         some ([10, 100], true, [1, 2]),
         some ([10, 100], true, [1, 2]))
    ∧ ([Real.logb 10 10, Real.logb 10 100] : List ℝ) ≠ [10, 100] := by
  constructor
  · rw [construct_log_some (['A'] : Genotype) ['A'] [['T']] [(10 : ℝ), 100] [1, 2]
      [['A', 'T']] 1 (Real.logb 10) (by simp)]
    rfl
  · intro h
    simp only [List.cons.injEq] at h
    have h1 := h.1
    rw [Real.logb_self_eq_one (by norm_num)] at h1
    norm_num at h1

/-- C2: with `log_transform=true`, after construction the raw view holds
the phenotypes exactly as given, the map's own phenotypes are `logbase`
applied elementwise, and with `logbase = log10` the raw phenotypes are
`10 ^ phenotypes` elementwise (exactly, in the real-number model) at every
index with a positive raw value. -/
theorem c2_raw_snapshot_and_log10_roundtrip (wt g0 : Genotype) (gr : List Genotype)
    (ps : List ℝ) (stdevs : Option (List ℝ)) (muts : List (List Char)) (nr : Nat)
    (f : ℝ → ℝ) (hlen : ps.length = (g0 :: gr).length) :
    ((construct wt (g0 :: gr) ps stdevs true (some muts) nr f).map
        (fun st => st.Raw.map RawMap.phenotypes)) = Except.ok (some ps)
    ∧ ((construct wt (g0 :: gr) ps stdevs true (some muts) nr f).map
        GPMState.phenotypes) = Except.ok (ps.map f)
    ∧ (f = Real.logb 10 → ∀ i, i < ps.length → 0 < ps.getD i 0 →
        (10 : ℝ) ^ ((ps.map f).getD i 0) = ps.getD i 0) := by
  refine ⟨?_, ?_, ?_⟩
  · rcases stdevs with _ | s
    · rw [construct_log_none wt g0 gr ps muts nr f hlen]; rfl
    · rw [construct_log_some wt g0 gr ps s muts nr f hlen]; rfl
  · rcases stdevs with _ | s
    · rw [construct_log_none wt g0 gr ps muts nr f hlen]; rfl
    · rw [construct_log_some wt g0 gr ps s muts nr f hlen]; rfl
  · rintro rfl i hi hpos
    have hi' : i < (ps.map (Real.logb 10)).length := by simpa using hi
    have e1 : (ps.map (Real.logb 10)).getD i 0 = Real.logb 10 (ps.getD i 0) := by
      rw [List.getD_eq_getElem _ _ hi', List.getD_eq_getElem _ _ hi, List.getElem_map]
    rw [e1]
    exact Real.rpow_logb (by norm_num) (by norm_num) hpos

/-- Witness for C2 at a concrete input. -/
theorem c2_witness :
    ((construct (['A'] : Genotype) [['A'], ['T']] [(1 : ℝ), 10] none true
        (some [['A', 'T']]) 1 (Real.logb 10)).map
        (fun st => st.Raw.map RawMap.phenotypes)) = Except.ok (some [(1 : ℝ), 10])
    ∧ ((construct (['A'] : Genotype) [['A'], ['T']] [(1 : ℝ), 10] none true
        (some [['A', 'T']]) 1 (Real.logb 10)).map
        GPMState.phenotypes) = Except.ok ([(1 : ℝ), 10].map (Real.logb 10))
    ∧ (Real.logb 10 = Real.logb 10 →
        ∀ i, i < [(1 : ℝ), 10].length → 0 < [(1 : ℝ), 10].getD i 0 →
        (10 : ℝ) ^ (([(1 : ℝ), 10].map (Real.logb 10)).getD i 0) =
          [(1 : ℝ), 10].getD i 0) :=
  c2_raw_snapshot_and_log10_roundtrip ['A'] ['A'] [['T']] [(1 : ℝ), 10] none
    [['A', 'T']] 1 (Real.logb 10) (by simp)

/-- C4 (amended): for a map with `log_transform=false`, re-setting the
phenotypes to their own current value twice returns the exact original
state (so in particular the raw, std, err and binary-phenotype state is
unchanged). -/
theorem c4_setting_phenotypes_twice_is_identity_without_log (wt g0 : Genotype)
    (gr : List Genotype) (ps : List α) (stdevs : Option (List α))
    (muts : List (List Char)) (nr : Nat) (f : α → α)
    (hlen : ps.length = (g0 :: gr).length) :
    ((construct wt (g0 :: gr) ps stdevs false (some muts) nr f).bind (fun st =>
      (setPhenotypes st (PhenotypesInput.arr st.phenotypes)).bind (fun st' =>
        setPhenotypes st' (PhenotypesInput.arr st'.phenotypes))))
    = construct wt (g0 :: gr) ps stdevs false (some muts) nr f := by
  rcases stdevs with _ | s
  · rw [construct_nolog_none wt g0 gr ps muts nr f hlen]
    rw [ebind_ok]
    simp [setPhenotypes, hlen, ebind_ok]
  · rw [construct_nolog_some wt g0 gr ps s muts nr f hlen]
    rw [ebind_ok]
    simp [setPhenotypes, hlen, ebind_ok]

/-- Witness for C4's amended theorem at a concrete input. -/
theorem c4_witness :
    ((construct (['A'] : Genotype) [['A'], ['T']] [(1 : ℚ), 2] (some [1, 1]) false
        (some [['A', 'T']]) 1 id).bind (fun st =>
      (setPhenotypes st (PhenotypesInput.arr st.phenotypes)).bind (fun st' =>
        setPhenotypes st' (PhenotypesInput.arr st'.phenotypes))))
    = construct (['A'] : Genotype) [['A'], ['T']] [(1 : ℚ), 2] (some [1, 1]) false
        (some [['A', 'T']]) 1 id :=
  c4_setting_phenotypes_twice_is_identity_without_log ['A'] ['A'] [['T']]
    [(1 : ℚ), 2] (some [1, 1]) [['A', 'T']] 1 id (by simp)

/-- C4 (counterexample): for a `log_transform=true` map the claim fails:
the phenotypes setter treats its input as raw values, so re-setting the
(already transformed) phenotypes overwrites the raw view.  With raw
phenotypes `[10]` and `logbase = log10` the original `Raw.phenotypes` is
`[10]` and the map's phenotypes are `[1]`; the first self-set stores `[1]`
as the raw view and `[log10 1] = [0]` as the map's phenotypes, and the
second self-set stores that `[0]` as the raw view.  Every asserted value
is a stored input (`log10 10 = 1`, `log10 1 = 0`), so the trace is the
program's (numpy computes the same raw views; only the final map-level
phenotypes, `log10(0.0) = -inf` in numpy, involve a log of zero, and they
are not asserted here). -/
theorem c4_counterexample :
    ((construct (['A'] : Genotype) [['A']] [(10 : ℝ)] none true (some [['A']]) 1
        (Real.logb 10)).bind (fun st =>
      (setPhenotypes st (PhenotypesInput.arr st.phenotypes)).bind (fun st' =>
        (setPhenotypes st' (PhenotypesInput.arr st'.phenotypes)).map (fun st'' =>
          st''.Raw.map RawMap.phenotypes))))
      = Except.ok (some [(0 : ℝ)])
    ∧ ((construct (['A'] : Genotype) [['A']] [(10 : ℝ)] none true (some [['A']]) 1
        (Real.logb 10)).map (fun st => st.Raw.map RawMap.phenotypes))
      = Except.ok (some [(10 : ℝ)])
    ∧ some [(0 : ℝ)] ≠ some [(10 : ℝ)] := by
  have h10 : Real.logb 10 10 = 1 := Real.logb_self_eq_one (by norm_num)
  refine ⟨?_, ?_, by simp⟩
  · rw [construct_log_none (['A'] : Genotype) ['A'] [] [(10 : ℝ)] [['A']] 1
      (Real.logb 10) (by simp)]
    simp [setPhenotypes, ebind_ok, emap_ok, h10, Real.logb_one]
  · rw [construct_log_none (['A'] : Genotype) ['A'] [] [(10 : ℝ)] [['A']] 1
      (Real.logb 10) (by simp)]
    rfl

/-- C9: with `genotypes=None` and a fraction strictly below 0 or strictly
above 1, `sample` fails with the range error, before any index selection
or sampling takes place (the conclusion holds for every choice and
draw oracle, which the code never consults on this path). -/
theorem c9_sample_rejects_out_of_range_fraction {α : Type} [Field α] (wt g0 : Genotype)
    (gr : List Genotype) (ps : List α) (stdevs : Option (List α)) (ltf : Bool)
    (muts : List (List Char)) (nr : Nat) (f : α → α) (ns : Nat) (fraction : ℚ)
    (derived : Bool) (choiceFn : Nat → Nat → List Nat) (z : Nat → Nat → α)
    (sqrtFn : α → α)
    (hlen : ps.length = (g0 :: gr).length)
    (hfrac : fraction < 0 ∨ 1 < fraction) :
    ((construct wt (g0 :: gr) ps stdevs ltf (some muts) nr f).bind (fun st =>
        sample st ns none fraction derived choiceFn z sqrtFn))
      = Except.error "fraction is invalid." := by
  obtain ⟨st, hst, -⟩ := construct_ok_n wt g0 gr ps stdevs ltf muts nr f hlen
  rw [hst, ebind_ok]
  exact sample_fraction_invalid _ _ _ _ _ _ _ hfrac

/-- Witness for C9 at a concrete input (fraction 2). -/
theorem c9_witness :
    ((construct (['A'] : Genotype) [['A'], ['T']] [(1 : ℚ), 2] none false
        (some [['A', 'T']]) 1 id).bind (fun st =>
        sample st 1 none 2 true (fun _ k => List.range k) (fun _ _ => 0) id))
      = Except.error "fraction is invalid." :=
  c9_sample_rejects_out_of_range_fraction ['A'] ['A'] [['T']] [(1 : ℚ), 2] none
    false [['A', 'T']] 1 id 1 2 true (fun _ k => List.range k) (fun _ _ => 0) id
    (by simp) (by norm_num)

/-- C10: with `genotypes=None`, `derived=True` and a fraction in `[0, 1]`
small enough that `int(fraction * n) = 0`, the drawn index array is empty
and the forced write `random_indices[-1] = n - 1` fails with numpy's
out-of-bounds IndexError. -/
theorem c10_sample_empty_fraction_overflows {α : Type} [Field α] (wt g0 : Genotype)
    (gr : List Genotype) (ps : List α) (stdevs : Option (List α)) (ltf : Bool)
    (muts : List (List Char)) (nr : Nat) (f : α → α) (ns : Nat) (fraction : ℚ)
    (choiceFn : Nat → Nat → List Nat) (z : Nat → Nat → α) (sqrtFn : α → α)
    (hlen : ps.length = (g0 :: gr).length)
    (h0 : 0 ≤ fraction) (h1 : fraction ≤ 1)
    (hfl : ⌊fraction * (((g0 :: gr).length : Nat) : ℚ)⌋ = 0)
    (hch : choiceFn (g0 :: gr).length 0 = []) :
    ((construct wt (g0 :: gr) ps stdevs ltf (some muts) nr f).bind (fun st =>
        sample st ns none fraction true choiceFn z sqrtFn))
      = Except.error "IndexError: index -1 is out of bounds for axis 0 with size 0" := by
  have hnot : ¬(fraction < 0 ∨ 1 < fraction) := by
    rintro (h | h)
    · exact absurd h (not_lt.mpr h0)
    · exact absurd h (not_lt.mpr h1)
  obtain ⟨st, hst, hn⟩ := construct_ok_n wt g0 gr ps stdevs ltf muts nr f hlen
  rw [hst, ebind_ok]
  apply sample_empty_choice _ _ _ _ _ _ hnot
  rw [hn, hfl]
  exact hch

/-- Witness for C10 at a concrete input (fraction 0 on a two-genotype map). -/
theorem c10_witness :
    ((construct (['A'] : Genotype) [['A'], ['T']] [(1 : ℚ), 2] none false
        (some [['A', 'T']]) 1 id).bind (fun st =>
        sample st 1 none 0 true (fun _ _ => []) (fun _ _ => 0) id))
      = Except.error "IndexError: index -1 is out of bounds for axis 0 with size 0" :=
  c10_sample_empty_fraction_overflows ['A'] ['A'] [['T']] [(1 : ℚ), 2] none false
    [['A', 'T']] 1 id 1 0 (fun _ _ => []) (fun _ _ => 0) id
    (by simp) (by norm_num) (by norm_num) (by norm_num) rfl

/-! Helpers for the dict form of the phenotypes setter. -/

theorem if_dict_go_ok (st : GPMState α) (dct : List (Genotype × α)) (dv : α) :
    ∀ idxs : List Nat,
      (∀ i ∈ idxs, i < st.genotypes.length ∧
        (dictLookup dct (st.genotypes.getD i [])).isSome) →
      if_dict_go st dct idxs =
        Except.ok (idxs.map (fun i => (dictLookup dct (st.genotypes.getD i [])).getD dv)) := by
  intro idxs
  induction idxs with
  | nil => intro _; rfl
  | cons i rest ih =>
    intro h
    obtain ⟨hi, hsome⟩ := h i (by simp)
    have hget : st.genotypes.get? i = some (st.genotypes.getD i []) := by
      rw [List.get?_eq_getElem?, List.getD_eq_getElem _ _ hi, List.getElem?_eq_getElem hi]
    obtain ⟨v, hv⟩ := Option.isSome_iff_exists.mp hsome
    have hrest := ih (fun j hj => h j (List.mem_cons_of_mem _ hj))
    simp only [if_dict_go, hget, hv, hrest, List.map_cons, Option.getD_some]

theorem range_length_map_getD (l : List Genotype) (F : Genotype → α) :
    (List.range l.length).map (fun i => F (l.getD i [])) = l.map F := by
  apply List.ext_getElem
  · simp
  · intro i h1 h2
    have h2' : i < l.length := by simpa using h2
    simp only [List.getElem_map, List.getElem_range]
    rw [List.getD_eq_getElem _ _ h2']

theorem if_dict_ok (st : GPMState α) (dct : List (Genotype × α)) (dv : α)
    (hn : st.n = st.genotypes.length)
    (hcov : ∀ g ∈ st.genotypes, (dictLookup dct g).isSome) :
    if_dict st dct =
      Except.ok (st.genotypes.map (fun g => (dictLookup dct g).getD dv)) := by
  have hrw := range_length_map_getD st.genotypes (fun g => (dictLookup dct g).getD dv)
  rw [if_dict, hn, if_dict_go_ok st dct dv (List.range st.genotypes.length) ?_, hrw]
  intro i hi
  have hi' : i < st.genotypes.length := by simpa using hi
  refine ⟨hi', hcov _ ?_⟩
  rw [List.getD_eq_getElem _ _ hi']
  exact List.getElem_mem hi'

/-- The remainder of `sample` once the selected index list is fixed: the
try/except body (gpm.py lines 480-511) as a function of the outcome of the
sampling loop.  Named only so that reduction lemmas can rewrite the loop
outcome; `sample_after_choice` proves it is what `sample` computes. -/
def afterRows [Field α] (st : GPMState α) (ns : Nat) (sqrtFn : α → α)
    (ri' : List Nat) :
    Option (List (List Genotype) × List (List α)) → Except String (Sample α)
  | some (rg, rp) => mkSample sqrtFn (NpArray.two rg) (NpArray.two rp) ri'
  | none =>
    if ns ≠ 1 then Except.error "Won't create samples if sample error is not given."
    else
      match getRecorded st.genotypes ri', getRecorded st.phenotypes ri' with
      | some g1, some p1 => mkSample sqrtFn (NpArray.one g1) (NpArray.one p1) ri'
      | _, _ => Except.error "IndexError: list index out of range"

/-- Reduction of `sample` past the random index selection (`genotypes=None`,
valid fraction, `derived=True`, a nonempty drawn index array): the rest of
the call is the try/except body on the derived-fixed index list. -/
theorem sample_after_choice [Field α] (st : GPMState α) (ns : Nat) (fraction : ℚ)
    (choiceFn : Nat → Nat → List Nat) (z : Nat → Nat → α) (sqrtFn : α → α)
    (ri ri' : List Nat) (hne : ri ≠ [])
    (h0 : ¬(fraction < 0 ∨ 1 < fraction))
    (hch : choiceFn st.n ((⌊fraction * (st.n : ℚ)⌋).toNat) = ri)
    (hfix : ri.dropLast ++ [st.n - 1] = ri') :
    sample st ns none fraction true choiceFn z sqrtFn =
      afterRows st ns sqrtFn ri' (sampleRows st ri' ns z) := by
  subst hfix
  obtain ⟨i0, ri2, rfl⟩ := List.exists_cons_of_ne_nil hne
  simp only [sample, h0, hch]
  simp [afterRows]

/-- C6 code evaluation at the failing input: a map without stdeviations,
sampled with `n_samples = 1`, does not return the recorded values: the
degenerate except-branch builds one-dimensional arrays and
`Sample.__init__` indexes them two-dimensionally (`[:, 0]`), raising
IndexError.  With `n_samples = 2` the call fails with the documented
degenerate-sampling error, as the claim states. -/
theorem c6_degenerate_sampling_crashes_in_Sample :
    ((construct (['A'] : Genotype) [['A'], ['T']] [(1 : ℚ), 2] none false
        (some [['A', 'T']]) 1 id).bind (fun st =>
        sample st 1 none 1 true (fun _ k => List.range k) (fun _ _ => 0) id))
      = Except.error "IndexError: too many indices for array"
    ∧ ((construct (['A'] : Genotype) [['A'], ['T']] [(1 : ℚ), 2] none false
        (some [['A', 'T']]) 1 id).bind (fun st =>
        sample st 2 none 1 true (fun _ k => List.range k) (fun _ _ => 0) id))
      = Except.error "Won't create samples if sample error is not given." := by
  have hch : ∀ m : Nat,
      (fun (_ k : Nat) => List.range k) m ((⌊(1 : ℚ) * ((2 : Nat) : ℚ)⌋).toNat) = [0, 1] := by
    intro m
    have hf : (⌊(1 : ℚ) * ((2 : Nat) : ℚ)⌋) = 2 := by norm_num
    show List.range (⌊(1 : ℚ) * ((2 : Nat) : ℚ)⌋).toNat = [0, 1]
    rw [hf]
    rfl
  constructor
  · rw [construct_nolog_none (['A'] : Genotype) ['A'] [['T']] [(1 : ℚ), 2]
      [['A', 'T']] 1 id (by simp), ebind_ok]
    rw [sample_after_choice _ _ _ _ _ _ [0, 1] [0, 1] (by simp) (by norm_num) (hch 0) (by rfl)]
    simp [afterRows, sampleRows, getRecorded, mkSample, col0]
  · rw [construct_nolog_none (['A'] : Genotype) ['A'] [['T']] [(1 : ℚ), 2]
      [['A', 'T']] 1 id (by simp), ebind_ok]
    rw [sample_after_choice _ _ _ _ _ _ [0, 1] [0, 1] (by simp) (by norm_num) (hch 0) (by rfl)]
    simp [afterRows, sampleRows, getRecorded, mkSample, col0]

/-- C7: the phenotypes setter of a constructed map accepts a dict keyed by
genotype (resolving it into the array ordered as `genotypes`), and a
positional array, which fails with the length-mismatch error exactly when
its length differs from `n` and is otherwise stored index-aligned with
`genotypes` (directly when `log_transform` is off; through the raw
snapshot, with `logbase` applied to the stored map-level array, when it is
on). -/
theorem c7_phenotypes_setter_forms {α : Type} (wt g0 : Genotype)
    (gr : List Genotype) (ps0 : List α) (stdevs : Option (List α)) (ltf : Bool)
    (muts : List (List Char)) (nr : Nat) (f : α → α) (dv : α)
    (hlen0 : ps0.length = (g0 :: gr).length) :
    (∀ dct : List (Genotype × α),
      (∀ g ∈ g0 :: gr, (dictLookup dct g).isSome) →
      ((construct wt (g0 :: gr) ps0 stdevs ltf (some muts) nr f).bind (fun st =>
          (setPhenotypes st (PhenotypesInput.dict dct)).map (fun st' =>
            (st'.phenotypes, st'.Raw.map RawMap.phenotypes))))
        = Except.ok
            ((if ltf then ((g0 :: gr).map (fun g => (dictLookup dct g).getD dv)).map f
              else (g0 :: gr).map (fun g => (dictLookup dct g).getD dv)),
             (if ltf then some ((g0 :: gr).map (fun g => (dictLookup dct g).getD dv))
              else none)))
    ∧ (∀ v : List α,
        (((construct wt (g0 :: gr) ps0 stdevs ltf (some muts) nr f).bind (fun st =>
            setPhenotypes st (PhenotypesInput.arr v)))
          = Except.error "Number of phenotypes does not equal number of genotypes.")
        ↔ v.length ≠ (g0 :: gr).length)
    ∧ (∀ v : List α, v.length = (g0 :: gr).length →
        ((construct wt (g0 :: gr) ps0 stdevs ltf (some muts) nr f).bind (fun st =>
            (setPhenotypes st (PhenotypesInput.arr v)).map (fun st' =>
              (st'.phenotypes, st'.Raw.map RawMap.phenotypes))))
          = Except.ok ((if ltf then v.map f else v), (if ltf then some v else none))) := by
  have hmain : ∃ st, construct wt (g0 :: gr) ps0 stdevs ltf (some muts) nr f =
      Except.ok st ∧ st.genotypes = g0 :: gr ∧ st.n = (g0 :: gr).length
      ∧ st.log_transform = ltf ∧ st.logbase = f
      ∧ (ltf = false → st.Raw = none) ∧ st.Binary.isSome := by
    rcases ltf with _ | _ <;> rcases stdevs with _ | s
    · exact ⟨_, construct_nolog_none wt g0 gr ps0 muts nr f hlen0, rfl, rfl, rfl, rfl,
        fun _ => rfl, rfl⟩
    · exact ⟨_, construct_nolog_some wt g0 gr ps0 s muts nr f hlen0, rfl, rfl, rfl, rfl,
        fun _ => rfl, rfl⟩
    · exact ⟨_, construct_log_none wt g0 gr ps0 muts nr f hlen0, rfl, rfl, rfl, rfl,
        fun h => by simp at h, rfl⟩
    · exact ⟨_, construct_log_some wt g0 gr ps0 s muts nr f hlen0, rfl, rfl, rfl, rfl,
        fun h => by simp at h, rfl⟩
  obtain ⟨st, hst, hg, hn, hltf, hlb, hraw, hbin⟩ := hmain
  obtain ⟨b, hb⟩ := Option.isSome_iff_exists.mp hbin
  refine ⟨?_, ?_, ?_⟩
  · intro dct hcov
    rw [hst, ebind_ok]
    have hres := if_dict_ok st dct dv (by rw [hn, hg]) (by rw [hg]; exact hcov)
    rw [hg] at hres
    rcases ltf with _ | _
    · have hraw' := hraw rfl
      simp [setPhenotypes, hres, hltf, hlb, hraw', hb, emap_ok]
    · simp [setPhenotypes, hres, hltf, hlb, hb, emap_ok]
  · intro v
    by_cases hv : v.length = (g0 :: gr).length
    · rw [hst, ebind_ok]
      constructor
      · intro hcontra
        exfalso
        rcases ltf with _ | _ <;>
          simp [setPhenotypes, hv, hg, hltf, hb] at hcontra
      · intro hne
        exact absurd hv hne
    · rw [hst, ebind_ok]
      constructor
      · intro _
        exact hv
      · intro _
        have hvne : ¬v.length = st.genotypes.length := by rw [hg]; exact hv
        simp [setPhenotypes, hvne]
  · intro v hv
    rw [hst, ebind_ok]
    have hvok : v.length = st.genotypes.length := by rw [hg]; exact hv
    rcases ltf with _ | _
    · have hraw' := hraw rfl
      simp [setPhenotypes, hvok, hltf, hlb, hraw', hb, emap_ok]
    · simp [setPhenotypes, hvok, hltf, hlb, hb, emap_ok]

/-- Witness for C7 at a concrete input. -/
theorem c7_witness :
    (∀ dct : List (Genotype × ℚ),
      (∀ g ∈ [['A'], ['T']], (dictLookup dct g).isSome) →
      ((construct (['A'] : Genotype) [['A'], ['T']] [(1 : ℚ), 2] none false
          (some [['A', 'T']]) 1 id).bind (fun st =>
          (setPhenotypes st (PhenotypesInput.dict dct)).map (fun st' =>
            (st'.phenotypes, st'.Raw.map RawMap.phenotypes))))
        = Except.ok
            ((if false then (([['A'], ['T']] : List Genotype).map
                  (fun g => (dictLookup dct g).getD (0 : ℚ))).map id
              else ([['A'], ['T']] : List Genotype).map
                  (fun g => (dictLookup dct g).getD (0 : ℚ))),
             (if false then some (([['A'], ['T']] : List Genotype).map
                  (fun g => (dictLookup dct g).getD (0 : ℚ)))
              else none)))
    ∧ (∀ v : List ℚ,
        (((construct (['A'] : Genotype) [['A'], ['T']] [(1 : ℚ), 2] none false
            (some [['A', 'T']]) 1 id).bind (fun st =>
            setPhenotypes st (PhenotypesInput.arr v)))
          = Except.error "Number of phenotypes does not equal number of genotypes.")
        ↔ v.length ≠ ([['A'], ['T']] : List Genotype).length)
    ∧ (∀ v : List ℚ, v.length = ([['A'], ['T']] : List Genotype).length →
        ((construct (['A'] : Genotype) [['A'], ['T']] [(1 : ℚ), 2] none false
            (some [['A', 'T']]) 1 id).bind (fun st =>
            (setPhenotypes st (PhenotypesInput.arr v)).map (fun st' =>
              (st'.phenotypes, st'.Raw.map RawMap.phenotypes))))
          = Except.ok ((if false then v.map id else v),
              (if false then some v else none))) :=
  c7_phenotypes_setter_forms ['A'] ['A'] [['T']] [(1 : ℚ), 2] none false
    [['A', 'T']] 1 id 0 (by simp)

/-- C8 (amended): for every constructed map, `n` equals the genotype and
phenotype counts, `indices` is `0..n-1`, and `complete_genotypes` is the
concatenation of `genotypes` and `missing_genotypes` (so its size is their
sum); these invariants hold after construction, are preserved by the
phenotypes setter, and are preserved by the genotypes setter whenever the
new genotype list has the same length (setting genotypes to a list of a
different length leaves the phenotype array stale, breaking
`len(phenotypes) = n` — see the counterexample). -/
theorem c8_size_invariants {α : Type} (wt g0 : Genotype)
    (gr : List Genotype) (ps : List α) (stdevs : Option (List α)) (ltf : Bool)
    (muts : List (List Char)) (nr : Nat) (f : α → α)
    (hlen : ps.length = (g0 :: gr).length) :
    ((construct wt (g0 :: gr) ps stdevs ltf (some muts) nr f).map
        (fun st => (st.n, st.phenotypes.length, st.indices)))
      = Except.ok ((g0 :: gr).length, (g0 :: gr).length, List.range (g0 :: gr).length)
    ∧ (∀ st : GPMState α,
        complete_genotypes st = st.genotypes ++ st.missing_genotypes
        ∧ (complete_genotypes st).length =
            st.genotypes.length + st.missing_genotypes.length)
    ∧ (∀ v : List α, v.length = (g0 :: gr).length →
        ((construct wt (g0 :: gr) ps stdevs ltf (some muts) nr f).bind (fun st =>
            (setPhenotypes st (PhenotypesInput.arr v)).map
              (fun st' => (st'.n, st'.phenotypes.length, st'.indices))))
          = Except.ok ((g0 :: gr).length, (g0 :: gr).length,
              List.range (g0 :: gr).length))
    ∧ (∀ (g0' : Genotype) (gr' : List Genotype),
        (g0' :: gr').length = (g0 :: gr).length →
        ((construct wt (g0 :: gr) ps stdevs ltf (some muts) nr f).bind (fun st =>
            (setGenotypes st (g0' :: gr')).map
              (fun st' => (st'.n, st'.phenotypes.length, st'.indices))))
          = Except.ok ((g0' :: gr').length, (g0 :: gr).length,
              List.range (g0' :: gr').length)) := by
  refine ⟨?_, fun st => ⟨rfl, by simp [complete_genotypes]⟩, ?_, ?_⟩
  · rcases ltf with _ | _ <;> rcases stdevs with _ | s
    · rw [construct_nolog_none wt g0 gr ps muts nr f hlen]; simp [hlen, emap_ok]
    · rw [construct_nolog_some wt g0 gr ps s muts nr f hlen]; simp [hlen, emap_ok]
    · rw [construct_log_none wt g0 gr ps muts nr f hlen]; simp [hlen, emap_ok]
    · rw [construct_log_some wt g0 gr ps s muts nr f hlen]; simp [hlen, emap_ok]
  · intro v hv
    rcases ltf with _ | _ <;> rcases stdevs with _ | s
    · rw [construct_nolog_none wt g0 gr ps muts nr f hlen, ebind_ok]
      simp [setPhenotypes, hv, emap_ok]
    · rw [construct_nolog_some wt g0 gr ps s muts nr f hlen, ebind_ok]
      simp [setPhenotypes, hv, emap_ok]
    · rw [construct_log_none wt g0 gr ps muts nr f hlen, ebind_ok]
      simp [setPhenotypes, hv, emap_ok]
    · rw [construct_log_some wt g0 gr ps s muts nr f hlen, ebind_ok]
      simp [setPhenotypes, hv, emap_ok]
  · intro g0' gr' hg'
    rcases ltf with _ | _ <;> rcases stdevs with _ | s
    · rw [construct_nolog_none wt g0 gr ps muts nr f hlen, ebind_ok]
      simp [setGenotypes, hlen, hg', emap_ok]
    · rw [construct_nolog_some wt g0 gr ps s muts nr f hlen, ebind_ok]
      simp [setGenotypes, hlen, hg', emap_ok]
    · rw [construct_log_none wt g0 gr ps muts nr f hlen, ebind_ok]
      simp [setGenotypes, hlen, hg', emap_ok]
    · rw [construct_log_some wt g0 gr ps s muts nr f hlen, ebind_ok]
      simp [setGenotypes, hlen, hg', emap_ok]

/-- Witness for C8's amended theorem at a concrete input. -/
theorem c8_witness :
    ((construct (['A'] : Genotype) [['A'], ['T']] [(1 : ℚ), 2] none false
        (some [['A', 'T']]) 1 id).map
        (fun st => (st.n, st.phenotypes.length, st.indices)))
      = Except.ok (([['A'], ['T']] : List Genotype).length,
          ([['A'], ['T']] : List Genotype).length,
          List.range ([['A'], ['T']] : List Genotype).length)
    ∧ (∀ st : GPMState ℚ,
        complete_genotypes st = st.genotypes ++ st.missing_genotypes
        ∧ (complete_genotypes st).length =
            st.genotypes.length + st.missing_genotypes.length)
    ∧ (∀ v : List ℚ, v.length = ([['A'], ['T']] : List Genotype).length →
        ((construct (['A'] : Genotype) [['A'], ['T']] [(1 : ℚ), 2] none false
            (some [['A', 'T']]) 1 id).bind (fun st =>
            (setPhenotypes st (PhenotypesInput.arr v)).map
              (fun st' => (st'.n, st'.phenotypes.length, st'.indices))))
          = Except.ok (([['A'], ['T']] : List Genotype).length,
              ([['A'], ['T']] : List Genotype).length,
              List.range ([['A'], ['T']] : List Genotype).length))
    ∧ (∀ (g0' : Genotype) (gr' : List Genotype),
        (g0' :: gr').length = ([['A'], ['T']] : List Genotype).length →
        ((construct (['A'] : Genotype) [['A'], ['T']] [(1 : ℚ), 2] none false
            (some [['A', 'T']]) 1 id).bind (fun st =>
            (setGenotypes st (g0' :: gr')).map
              (fun st' => (st'.n, st'.phenotypes.length, st'.indices))))
          = Except.ok ((g0' :: gr').length,
              ([['A'], ['T']] : List Genotype).length,
              List.range (g0' :: gr').length)) :=
  c8_size_invariants ['A'] ['A'] [['T']] [(1 : ℚ), 2] none false
    [['A', 'T']] 1 id (by simp)

/-- C8 (counterexample): the genotypes setter alone re-derives `n`,
`length` and `indices` but does not touch the phenotypes, so setting the
genotypes of a two-genotype map to a one-genotype list leaves
`len(phenotypes) = 2 ≠ 1 = n`. -/
theorem c8_counterexample :
    ((construct (['A'] : Genotype) [['A'], ['T']] [(1 : ℚ), 2] none false
        (some [['A', 'T']]) 1 id).bind (fun st =>
      (setGenotypes st [['A']]).map (fun st' => (st'.n, st'.phenotypes.length))))
      = Except.ok (1, 2)
    ∧ (1 : Nat) ≠ 2 := by
  constructor
  · rw [construct_nolog_none (['A'] : Genotype) ['A'] [['T']] [(1 : ℚ), 2]
      [['A', 'T']] 1 id (by simp)]
    rfl
  · decide

/-! Helpers for the shape of a successful `sample` (claim C5). -/

/-- The list of row lengths of a two-dimensional array (`none` for a
one-dimensional one); a statement-side projection used to express the
shape `(rows, columns)` of a replicate matrix. -/
def rowLengths : NpArray β → Option (List Nat)
  | .one _ => none
  | .two rows => some (rows.map List.length)

theorem sampleRowsAux_spec [Mul α] [Add α] (gs : List Genotype) (u c : List α)
    (ns : Nat) (z : Nat → Nat → α) :
    ∀ (idxs : List Nat) (i : Nat),
      (∀ ix ∈ idxs, ix < gs.length ∧ ix < u.length ∧ ix < c.length) →
      ∃ rp : List (List α),
        sampleRowsAux gs u c ns z i idxs =
          some (idxs.map (fun ix => List.replicate ns (gs.getD ix [])), rp)
        ∧ rp.length = idxs.length ∧ ∀ row ∈ rp, row.length = ns := by
  intro idxs
  induction idxs with
  | nil => exact fun i _ => ⟨[], rfl, rfl, by simp⟩
  | cons ix rest ih =>
    intro i h
    obtain ⟨h1, h2, h3⟩ := h ix (by simp)
    obtain ⟨rp, hrp, hrplen, hrow⟩ := ih (i + 1) (fun j hj => h j (List.mem_cons_of_mem _ hj))
    have hg : gs.get? ix = some (gs.getD ix []) := by
      rw [List.get?_eq_getElem?, List.getElem?_eq_getElem h1, List.getD_eq_getElem _ _ h1]
    obtain ⟨uv, hu⟩ : ∃ v, u.get? ix = some v :=
      ⟨_, by rw [List.get?_eq_getElem?]; exact List.getElem?_eq_getElem h2⟩
    obtain ⟨cv, hc⟩ : ∃ v, c.get? ix = some v :=
      ⟨_, by rw [List.get?_eq_getElem?]; exact List.getElem?_eq_getElem h3⟩
    refine ⟨((List.range ns).map (fun j => uv * z i j + cv)) :: rp, ?_,
      by simp [hrplen], ?_⟩
    · simp only [sampleRowsAux, hg, hu, hc, hrp, List.map_cons]
    · intro row hmem
      rcases List.mem_cons.mp hmem with hrow1 | hrow2
      · simp [hrow1]
      · exact hrow row hrow2

theorem col0_two_heads [Inhabited β] : ∀ rows : List (List β), (∀ row ∈ rows, row ≠ []) →
    col0 (NpArray.two rows) = Except.ok (rows.map List.headI) := by
  intro rows
  induction rows with
  | nil => intro _; simp [col0]
  | cons r rest ih =>
    intro h
    obtain ⟨x, xs, rfl⟩ := List.exists_cons_of_ne_nil (h r (by simp))
    simp only [col0, ih (fun q hq => h q (List.mem_cons_of_mem _ hq)), List.map_cons]
    rfl

theorem mkSample_two_spec [Field α] (ri' : List Nat) (gs : List Genotype)
    (rp : List (List α)) (ns : Nat) (sqrtFn : α → α) (hns : 1 ≤ ns)
    (hrow : ∀ row ∈ rp, row.length = ns) :
    (mkSample sqrtFn
        (NpArray.two (ri'.map (fun ix => List.replicate ns (gs.getD ix []))))
        (NpArray.two rp) ri').map
      (fun smp => (rowLengths smp.replicate_phenotypes, smp.genotypes.getLast?))
    = Except.ok (some (List.replicate rp.length ns),
        (ri'.map (fun ix => gs.getD ix [])).getLast?) := by
  have hrepl : ∀ a : Genotype, List.replicate ns a ≠ [] := by
    intro a
    cases ns with
    | zero => omega
    | succ k => simp [List.replicate_succ]
  have hheads : ∀ a : Genotype, (List.replicate ns a).headI = a := by
    intro a
    cases ns with
    | zero => omega
    | succ k => simp [List.replicate_succ]
  have hcol := col0_two_heads (ri'.map (fun ix => List.replicate ns (gs.getD ix [])))
    (by
      intro row hr
      obtain ⟨ix, _, rfl⟩ := List.mem_map.mp hr
      exact hrepl _)
  simp only [mkSample, hcol, meanAxis1, stdAxis1, emap_ok]
  refine congrArg Except.ok (Prod.ext ?_ ?_)
  · show rowLengths (NpArray.two rp) = some (List.replicate rp.length ns)
    simp only [rowLengths, Option.some.injEq]
    refine List.eq_replicate_iff.mpr ⟨by simp, ?_⟩
    intro b hb
    obtain ⟨row, hrmem, rfl⟩ := List.mem_map.mp hb
    exact hrow row hrmem
  · show ((ri'.map (fun ix => List.replicate ns (gs.getD ix []))).map List.headI).getLast?
        = (ri'.map (fun ix => gs.getD ix [])).getLast?
    rw [List.map_map]
    refine congrArg List.getLast? (List.map_congr_left ?_)
    intro ix _
    exact hheads _

/-- C5: on a map with an uncertainty view (stdeviations supplied,
well-formed: one per genotype), `sample(n_samples, genotypes=None,
fraction=1.0, derived=True)` succeeds for any positive `n_samples` and any
draw of `n` in-range indices, and returns a `Sample` whose
`replicate_phenotypes` matrix has shape `(n, n_samples)` (n rows, each of
`n_samples` columns) and whose genotype in the last selected row equals
`genotypes[n-1]`. -/
theorem c5_sample_shape_and_last_genotype {α : Type} [Field α] (wt g0 : Genotype)
    (gr : List Genotype) (ps s : List α) (ltf : Bool) (muts : List (List Char))
    (nr : Nat) (f : α → α) (ns : Nat) (choiceFn : Nat → Nat → List Nat)
    (z : Nat → Nat → α) (sqrtFn : α → α)
    (hlen : ps.length = (g0 :: gr).length)
    (hslen : s.length = (g0 :: gr).length)
    (hns : 1 ≤ ns)
    (hch : (choiceFn (g0 :: gr).length (g0 :: gr).length).length = (g0 :: gr).length)
    (hsub : ∀ ix ∈ choiceFn (g0 :: gr).length (g0 :: gr).length,
      ix < (g0 :: gr).length) :
    ((construct wt (g0 :: gr) ps (some s) ltf (some muts) nr f).bind (fun st =>
        sample st ns none 1 true choiceFn z sqrtFn)).map
      (fun smp => (rowLengths smp.replicate_phenotypes, smp.genotypes.getLast?))
    = Except.ok (some (List.replicate (g0 :: gr).length ns), (g0 :: gr).getLast?) := by
  have hflr : (⌊(1 : ℚ) * (((g0 :: gr).length : Nat) : ℚ)⌋).toNat = (g0 :: gr).length := by
    rw [one_mul, Int.floor_natCast, Int.toNat_natCast]
  have hfr : ¬((1 : ℚ) < 0 ∨ 1 < (1 : ℚ)) := by norm_num
  have hrine : choiceFn (g0 :: gr).length (g0 :: gr).length ≠ [] := by
    refine List.length_pos.mp ?_
    rw [hch]
    simp
  have hlen' : ((choiceFn (g0 :: gr).length (g0 :: gr).length).dropLast ++
      [(g0 :: gr).length - 1]).length = (g0 :: gr).length := by
    rw [List.length_append, List.length_dropLast, hch]
    simp
  have hmem' : ∀ ix ∈ (choiceFn (g0 :: gr).length (g0 :: gr).length).dropLast ++
      [(g0 :: gr).length - 1], ix < (g0 :: gr).length := by
    intro ix hix
    rcases List.mem_append.mp hix with hx | hx
    · exact hsub ix (List.dropLast_subset _ hx)
    · have hxx : ix = (g0 :: gr).length - 1 := by simpa using hx
      subst hxx
      simp
  have hlast : ((choiceFn (g0 :: gr).length (g0 :: gr).length).dropLast ++
      [(g0 :: gr).length - 1]).getLast? = some ((g0 :: gr).length - 1) :=
    List.getLast?_concat _
  have hglast : (g0 :: gr).getLast? =
      some ((g0 :: gr).getD ((g0 :: gr).length - 1) []) := by
    have hlt : (g0 :: gr).length - 1 < (g0 :: gr).length := by simp
    rw [List.getLast?_eq_getElem?, List.getElem?_eq_getElem hlt,
      List.getD_eq_getElem _ _ hlt]
  have main : ∀ (st : GPMState α) (uppers centers : List α),
      st.genotypes = g0 :: gr →
      uppers.length = (g0 :: gr).length → centers.length = (g0 :: gr).length →
      sampleRows st ((choiceFn (g0 :: gr).length (g0 :: gr).length).dropLast ++
        [(g0 :: gr).length - 1]) ns z =
        sampleRowsAux (g0 :: gr) uppers centers ns z 0
          ((choiceFn (g0 :: gr).length (g0 :: gr).length).dropLast ++
            [(g0 :: gr).length - 1]) →
      (afterRows st ns sqrtFn
          ((choiceFn (g0 :: gr).length (g0 :: gr).length).dropLast ++
            [(g0 :: gr).length - 1])
          (sampleRows st ((choiceFn (g0 :: gr).length (g0 :: gr).length).dropLast ++
            [(g0 :: gr).length - 1]) ns z)).map
        (fun smp => (rowLengths smp.replicate_phenotypes, smp.genotypes.getLast?))
      = Except.ok (some (List.replicate (g0 :: gr).length ns), (g0 :: gr).getLast?) := by
    intro st uppers centers hstg hul hcl hrows
    obtain ⟨rp, hrp, hrplen, hrow⟩ :=
      sampleRowsAux_spec (g0 :: gr) uppers centers ns z
        ((choiceFn (g0 :: gr).length (g0 :: gr).length).dropLast ++
          [(g0 :: gr).length - 1]) 0
        (fun ix hix => ⟨hmem' ix hix, by rw [hul]; exact hmem' ix hix,
          by rw [hcl]; exact hmem' ix hix⟩)
    rw [hrows, hrp]
    simp only [afterRows]
    rw [mkSample_two_spec _ (g0 :: gr) rp ns sqrtFn hns hrow]
    rw [hrplen, hlen', List.getLast?_map, hlast, hglast]
    rfl
  rcases ltf with _ | _
  · rw [construct_nolog_some wt g0 gr ps s muts nr f hlen, ebind_ok]
    rw [sample_after_choice _ _ _ choiceFn z sqrtFn
      (choiceFn (g0 :: gr).length (g0 :: gr).length)
      ((choiceFn (g0 :: gr).length (g0 :: gr).length).dropLast ++
        [(g0 :: gr).length - 1])
      hrine hfr (by rw [hflr]) rfl]
    refine main _ (List.zipWith (fun p q => p + q) ps s) ps rfl ?_ hlen ?_
    · rw [List.length_zipWith, hlen, hslen]
      exact min_self _
    · rfl
  · rw [construct_log_some wt g0 gr ps s muts nr f hlen, ebind_ok]
    rw [sample_after_choice _ _ _ choiceFn z sqrtFn
      (choiceFn (g0 :: gr).length (g0 :: gr).length)
      ((choiceFn (g0 :: gr).length (g0 :: gr).length).dropLast ++
        [(g0 :: gr).length - 1])
      hrine hfr (by rw [hflr]) rfl]
    refine main _ (List.zipWith (fun p q => p + q) (ps.map f) s) ps rfl ?_ hlen ?_
    · rw [List.length_zipWith, List.length_map, hlen, hslen]
      exact min_self _
    · rfl

/-- Witness for C5 at a concrete input. -/
theorem c5_witness :
    ((construct (['A'] : Genotype) [['A'], ['T']] [(1 : ℚ), 2] (some [1, 1]) false
        (some [['A', 'T']]) 1 id).bind (fun st =>
        sample st 3 none 1 true (fun _ k => List.range k) (fun _ _ => 0) id)).map
      (fun smp => (rowLengths smp.replicate_phenotypes, smp.genotypes.getLast?))
    = Except.ok (some (List.replicate ([['A'], ['T']] : List Genotype).length 3),
        ([['A'], ['T']] : List Genotype).getLast?) :=
  c5_sample_shape_and_last_genotype ['A'] ['A'] [['T']] [(1 : ℚ), 2] [1, 1] false
    [['A', 'T']] 1 id 3 (fun _ k => List.range k) (fun _ _ => 0) id
    (by simp) (by simp) (by omega) (by simp) (by simp)

/-! Helpers for subspace extraction (claim C3). -/

theorem construct_genotypes_cons_length (c : List Char) (rest : List (List Char)) :
    (construct_genotypes (c :: rest)).length =
      c.length * (construct_genotypes rest).length := by
  induction c with
  | nil => simp [construct_genotypes]
  | cons x c ih =>
    simp only [construct_genotypes, List.flatMap_cons, List.length_append,
      List.length_map] at ih ⊢
    rw [ih, List.length_cons]
    ring

/-- The sub-lattice spanned by two endpoints has `2 ^ k` members, `k` the
number of differing sites. -/
theorem construct_genotypes_binary_length (g1 : Genotype) :
    ∀ g2 : Genotype, (construct_genotypes (binary_mutations_map g1 g2)).length =
      2 ^ hamming_distance g1 g2 := by
  induction g1 with
  | nil => intro g2; rfl
  | cons a as ih =>
    intro g2
    cases g2 with
    | nil => rfl
    | cons b bs =>
      by_cases hab : a = b
      · rw [show binary_mutations_map (a :: as) (b :: bs) =
            [a] :: binary_mutations_map as bs by simp [binary_mutations_map, hab]]
        rw [construct_genotypes_cons_length, ih bs]
        rw [show hamming_distance (a :: as) (b :: bs) = hamming_distance as bs by
          simp [hamming_distance, hab]]
        simp
      · rw [show binary_mutations_map (a :: as) (b :: bs) =
            [a, b] :: binary_mutations_map as bs by simp [binary_mutations_map, hab]]
        rw [construct_genotypes_cons_length, ih bs]
        rw [show hamming_distance (a :: as) (b :: bs) = 1 + hamming_distance as bs by
          simp [hamming_distance, hab]]
        rw [pow_add]
        simp [mul_comm]

theorem resolvePhenotypes_ok (mapping : Genotype → Option α) :
    ∀ l : List Genotype, (∀ g ∈ l, (mapping g).isSome) →
      ∃ vs, resolvePhenotypes mapping l = Except.ok vs
        ∧ vs.length = l.length
        ∧ ∀ i, i < l.length → mapping (l.getD i []) = vs.get? i := by
  intro l
  induction l with
  | nil => exact fun _ => ⟨[], rfl, rfl, fun i hi => absurd hi (by simp)⟩
  | cons g rest ih =>
    intro h
    obtain ⟨v, hv⟩ := Option.isSome_iff_exists.mp (h g (by simp))
    obtain ⟨vs, hres, hlen, hval⟩ := ih (fun q hq => h q (List.mem_cons_of_mem _ hq))
    refine ⟨v :: vs, ?_, by simp [hlen], ?_⟩
    · simp only [resolvePhenotypes, hv, hres]
    · intro i hi
      cases i with
      | zero => simpa using hv
      | succ j =>
        have hj : j < rest.length := by simpa using hi
        simpa using hval j hj

theorem resolvePhenotypes_error (mapping : Genotype → Option α) :
    ∀ l : List Genotype, (∃ g ∈ l, mapping g = none) →
      ∃ e, resolvePhenotypes mapping l = Except.error e := by
  intro l
  induction l with
  | nil => rintro ⟨g, hg, -⟩; cases hg
  | cons g rest ih =>
    rintro ⟨q, hq, hnone⟩
    rcases List.mem_cons.mp hq with rfl | hmem
    · exact ⟨"KeyError", by simp only [resolvePhenotypes, hnone]⟩
    · cases hg : mapping g with
      | none => exact ⟨"KeyError", by simp only [resolvePhenotypes, hg]⟩
      | some v =>
        obtain ⟨e, herr⟩ := ih ⟨q, hmem, hnone⟩
        exact ⟨e, by simp only [resolvePhenotypes, hg, herr]⟩

theorem dictLookup_cons_pos (kv : Genotype × α) (rest : List (Genotype × α))
    (g : Genotype) (h : kv.1 == g) : dictLookup (kv :: rest) g = some kv.2 := by
  unfold dictLookup
  rw [@List.find?_cons_of_pos _ (fun kv => kv.1 == g) kv rest h]
  rfl

theorem dictLookup_cons_neg (kv : Genotype × α) (rest : List (Genotype × α))
    (g : Genotype) (h : ¬(kv.1 == g)) :
    dictLookup (kv :: rest) g = dictLookup rest g := by
  unfold dictLookup
  rw [@List.find?_cons_of_neg _ (fun kv => kv.1 == g) kv rest h]

theorem dictLookup_zip_isSome (gs : List Genotype) :
    ∀ (vs : List α), gs.length = vs.length → ∀ g ∈ gs,
      (dictLookup (gs.zip vs) g).isSome := by
  induction gs with
  | nil => intro vs _ g hg; cases hg
  | cons q0 qr ih =>
    intro vs hlen g hg
    cases vs with
    | nil => simp at hlen
    | cons v0 vr =>
      rw [show ((q0 :: qr).zip (v0 :: vr)) = (q0, v0) :: qr.zip vr from rfl]
      by_cases h0 : q0 == g
      · rw [dictLookup_cons_pos _ _ _ h0]
        rfl
      · rw [dictLookup_cons_neg _ _ _ h0]
        rcases List.mem_cons.mp hg with rfl | hmem
        · simp at h0
        · exact ih vr (by simpa using hlen) g hmem

theorem dictLookup_zip_get (gs : List Genotype) :
    ∀ (vs : List α), gs.Nodup → gs.length = vs.length →
      ∀ j, j < gs.length → dictLookup (gs.zip vs) (gs.getD j []) = vs.get? j := by
  induction gs with
  | nil => intro vs _ _ j hj; simp at hj
  | cons q0 qr ih =>
    intro vs hnd hlen j hj
    cases vs with
    | nil => simp at hlen
    | cons v0 vr =>
      rw [show ((q0 :: qr).zip (v0 :: vr)) = (q0, v0) :: qr.zip vr from rfl]
      cases j with
      | zero =>
        rw [show (q0 :: qr).getD 0 [] = q0 from rfl]
        rw [dictLookup_cons_pos _ _ _ (by simp)]
        rfl
      | succ k =>
        have hk : k < qr.length := by simpa using hj
        have hget : (q0 :: qr).getD (k + 1) [] = qr.getD k [] := by simp
        have hne : ¬(q0 == qr.getD k []) := by
          have hmem : qr.getD k [] ∈ qr := by
            rw [List.getD_eq_getElem _ _ hk]
            exact List.getElem_mem hk
          have hq0 : q0 ∉ qr := (List.nodup_cons.mp hnd).1
          simp only [beq_iff_eq]
          intro hcontra
          exact hq0 (hcontra ▸ hmem)
        rw [hget, dictLookup_cons_neg _ _ _ hne,
          ih vr (List.nodup_cons.mp hnd).2 (by simpa using hlen) k hk]
        rfl

theorem dictLookup_zip_eq_none (gs : List Genotype) (vs : List α) (g : Genotype)
    (hg : g ∉ gs) : dictLookup (gs.zip vs) g = none := by
  have hfind : List.find? (fun kv => kv.1 == g) (gs.zip vs) = none := by
    refine List.find?_eq_none.mpr ?_
    rintro ⟨a, b⟩ hab
    have ha : a ∈ gs := (List.of_mem_zip hab).1
    simp only [beq_iff_eq]
    intro hcontra
    exact hg (hcontra ▸ ha)
  unfold dictLookup
  rw [hfind]
  rfl

theorem getD_congr (l1 l2 : List α) (i j : Nat) (d : α)
    (h : l1.get? i = l2.get? j) : l1.getD i d = l2.getD j d := by
  rw [List.getD_eq_getElem?_getD, List.getD_eq_getElem?_getD, ← List.get?_eq_getElem?,
    ← List.get?_eq_getElem?, h]

/-- The state `construct` produces, described by its fields (any
configuration); used to reason about the parent and the child map of
`subspace` uniformly. -/
theorem construct_ok_fields (wt : Genotype) (gs : List Genotype) (ps : List α)
    (stdevs : Option (List α)) (ltf : Bool) (muts : List (List Char)) (nr : Nat)
    (f : α → α) (hne : gs ≠ []) (hlen : ps.length = gs.length) :
    ∃ st, construct wt gs ps stdevs ltf (some muts) nr f = Except.ok st
      ∧ st.genotypes = gs ∧ st.n = gs.length ∧ st.wildtype = wt
      ∧ st.phenotypes = (if ltf then ps.map f else ps)
      ∧ st.log_transform = ltf ∧ st.logbase = f ∧ st.n_replicates = nr
      ∧ st.stdeviations = stdevs
      ∧ (ltf = true → ∃ raw, st.Raw = some raw ∧ raw.phenotypes = ps
          ∧ raw.stdeviations = stdevs) := by
  obtain ⟨q0, qr, rfl⟩ := List.exists_cons_of_ne_nil hne
  rcases ltf with _ | _ <;> rcases stdevs with _ | s
  · exact ⟨_, construct_nolog_none wt q0 qr ps muts nr f hlen, rfl, rfl, rfl, by simp,
      rfl, rfl, rfl, rfl, fun h => by simp at h⟩
  · exact ⟨_, construct_nolog_some wt q0 qr ps s muts nr f hlen, rfl, rfl, rfl, by simp,
      rfl, rfl, rfl, rfl, fun h => by simp at h⟩
  · exact ⟨_, construct_log_none wt q0 qr ps muts nr f hlen, rfl, rfl, rfl, by simp,
      rfl, rfl, rfl, rfl, fun _ => ⟨_, rfl, rfl, rfl⟩⟩
  · exact ⟨_, construct_log_some wt q0 qr ps s muts nr f hlen, rfl, rfl, rfl, by simp,
      rfl, rfl, rfl, rfl, fun _ => ⟨_, rfl, rfl, rfl⟩⟩

theorem subspace_eq_nolog (st : GPMState α) (g1 g2 : Genotype)
    (hltf : st.log_transform = false) :
    subspace st g1 g2 =
      match resolvePhenotypes (dictLookup (st.genotypes.zip st.phenotypes))
          (construct_genotypes (binary_mutations_map g1 g2)) with
      | Except.error e => Except.error e
      | Except.ok phens =>
        construct g1 (construct_genotypes (binary_mutations_map g1 g2)) phens
          st.stdeviations st.log_transform (some (binary_mutations_map g1 g2))
          st.n_replicates st.logbase := by
  simp [subspace, hltf]

theorem subspace_eq_log (st : GPMState α) (raw : RawMap α) (g1 g2 : Genotype)
    (hltf : st.log_transform = true) (hraw : st.Raw = some raw) :
    subspace st g1 g2 =
      match resolvePhenotypes (dictLookup (st.genotypes.zip raw.phenotypes))
          (construct_genotypes (binary_mutations_map g1 g2)) with
      | Except.error e => Except.error e
      | Except.ok phens =>
        construct g1 (construct_genotypes (binary_mutations_map g1 g2)) phens
          raw.stdeviations st.log_transform (some (binary_mutations_map g1 g2))
          st.n_replicates st.logbase := by
  simp [subspace, hltf, hraw]

/-- C3: for a parent map with distinct genotypes and endpoints `g1`, `g2`
differing at exactly `k` sites, when every member of the spanned
sub-lattice is present in the parent, `subspace(g1, g2)` returns a map
with exactly `2 ^ k` genotypes (the sub-lattice itself), wildtype `g1`,
and the phenotype at each genotype equal to the parent's phenotype at the
matching genotype; when some member of the sub-lattice is absent it fails
(a KeyError from the lookup).  The sequence utilities it relies on are
modelled from the spec. -/
theorem c3_subspace_sublattice {α : Type} (wt g0 : Genotype) (gr : List Genotype)
    (ps : List α) (stdevs : Option (List α)) (ltf : Bool) (muts : List (List Char))
    (nr : Nat) (f : α → α) (g1 g2 : Genotype) (k : Nat) (d : α)
    (hlen : ps.length = (g0 :: gr).length)
    (hnd : (g0 :: gr).Nodup)
    (hk : hamming_distance g1 g2 = k) :
    ((∀ g ∈ construct_genotypes (binary_mutations_map g1 g2), g ∈ g0 :: gr) →
      ∃ child : GPMState α,
        ((construct wt (g0 :: gr) ps stdevs ltf (some muts) nr f).bind (fun p =>
          subspace p g1 g2)) = Except.ok child
        ∧ child.genotypes.length = 2 ^ k
        ∧ child.n = 2 ^ k
        ∧ child.wildtype = g1
        ∧ child.genotypes = construct_genotypes (binary_mutations_map g1 g2)
        ∧ (construct wt (g0 :: gr) ps stdevs ltf (some muts) nr f).map
            GPMState.phenotypes = Except.ok (if ltf then ps.map f else ps)
        ∧ (∀ i j, i < child.genotypes.length → j < (g0 :: gr).length →
            child.genotypes.getD i [] = (g0 :: gr).getD j [] →
            child.phenotypes.getD i d =
              (if ltf then ps.map f else ps).getD j d))
    ∧ ((∃ g ∈ construct_genotypes (binary_mutations_map g1 g2), g ∉ g0 :: gr) →
        ∃ e, ((construct wt (g0 :: gr) ps stdevs ltf (some muts) nr f).bind (fun p =>
          subspace p g1 g2)) = Except.error e) := by
  obtain ⟨parent, hpst, hpg, hpn, hpwt, hpph, hpltf, hplb, hpnr, hpsd, hpraw⟩ :=
    construct_ok_fields wt (g0 :: gr) ps stdevs ltf muts nr f (by simp) hlen
  have hsubeq : subspace parent g1 g2 =
      match resolvePhenotypes (dictLookup ((g0 :: gr).zip ps))
          (construct_genotypes (binary_mutations_map g1 g2)) with
      | Except.error e => Except.error e
      | Except.ok phens =>
        construct g1 (construct_genotypes (binary_mutations_map g1 g2)) phens
          stdevs ltf (some (binary_mutations_map g1 g2)) nr f := by
    rcases ltf with _ | _
    · rw [subspace_eq_nolog parent g1 g2 hpltf, hpg, hpph, hpsd, hplb, hpnr, hpltf]
      simp
    · obtain ⟨raw, hr, hrph, hrsd⟩ := hpraw rfl
      rw [subspace_eq_log parent raw g1 g2 hpltf hr, hpg, hrph, hrsd, hplb, hpnr, hpltf]
  have hcglen : (construct_genotypes (binary_mutations_map g1 g2)).length = 2 ^ k := by
    rw [construct_genotypes_binary_length, hk]
  constructor
  · intro hall
    have hcov : ∀ g ∈ construct_genotypes (binary_mutations_map g1 g2),
        (dictLookup ((g0 :: gr).zip ps) g).isSome := fun g hg =>
      dictLookup_zip_isSome (g0 :: gr) ps hlen.symm g (hall g hg)
    obtain ⟨vs, hres, hvslen, hval⟩ := resolvePhenotypes_ok _ _ hcov
    have hcne : construct_genotypes (binary_mutations_map g1 g2) ≠ [] := by
      refine List.length_pos.mp ?_
      rw [hcglen]
      positivity
    obtain ⟨child, hchild, hcg, hcn, hcwt, hcph, -, -, -, -, -⟩ :=
      construct_ok_fields g1 (construct_genotypes (binary_mutations_map g1 g2)) vs
        stdevs ltf (binary_mutations_map g1 g2) nr f hcne (by rw [hvslen])
    refine ⟨child, ?_, ?_, ?_, hcwt, hcg, ?_, ?_⟩
    · rw [hpst, ebind_ok, hsubeq, hres]
      exact hchild
    · rw [hcg, hcglen]
    · rw [hcn, hcglen]
    · rw [hpst, emap_ok, hpph]
    · intro i j hi hj heq
      rw [hcg] at hi heq
      have hget : vs.get? i = ps.get? j := by
        have h1 := hval i hi
        rw [heq] at h1
        rw [← h1, dictLookup_zip_get (g0 :: gr) ps hnd hlen.symm j hj]
      have hfinal : (if ltf then vs.map f else vs).get? i =
          (if ltf then ps.map f else ps).get? j := by
        rcases ltf with _ | _
        · simpa using hget
        · have h1 : (vs.map f).get? i = (ps.map f).get? j := by
            rw [List.get?_eq_getElem?, List.get?_eq_getElem?, List.getElem?_map,
              List.getElem?_map, ← List.get?_eq_getElem?, ← List.get?_eq_getElem?, hget]
          simpa using h1
      rw [hcph]
      exact getD_congr _ _ i j d hfinal
  · rintro ⟨g, hgmem, hgabs⟩
    have hnone : dictLookup ((g0 :: gr).zip ps) g = none :=
      dictLookup_zip_eq_none (g0 :: gr) ps g hgabs
    obtain ⟨e, herr⟩ := resolvePhenotypes_error _ _ ⟨g, hgmem, hnone⟩
    refine ⟨e, ?_⟩
    rw [hpst, ebind_ok, hsubeq, herr]

/-- Witness for C3 at a concrete input: the complete two-site space
`AA, AT, TA, TT` with endpoints `AA` and `TT` (k = 2). -/
theorem c3_witness :
    ((∀ g ∈ construct_genotypes (binary_mutations_map ['A', 'A'] ['T', 'T']),
        g ∈ [['A', 'A'], ['A', 'T'], ['T', 'A'], ['T', 'T']]) →
      ∃ child : GPMState ℚ,
        ((construct (['A', 'A'] : Genotype)
            [['A', 'A'], ['A', 'T'], ['T', 'A'], ['T', 'T']] [(0 : ℚ), 1, 2, 3] none
            false (some [['A', 'T'], ['A', 'T']]) 1 id).bind (fun p =>
          subspace p ['A', 'A'] ['T', 'T'])) = Except.ok child
        ∧ child.genotypes.length = 2 ^ 2
        ∧ child.n = 2 ^ 2
        ∧ child.wildtype = ['A', 'A']
        ∧ child.genotypes = construct_genotypes (binary_mutations_map ['A', 'A'] ['T', 'T'])
        ∧ (construct (['A', 'A'] : Genotype)
              [['A', 'A'], ['A', 'T'], ['T', 'A'], ['T', 'T']] [(0 : ℚ), 1, 2, 3] none
              false (some [['A', 'T'], ['A', 'T']]) 1 id).map
            GPMState.phenotypes
          = Except.ok (if false then [(0 : ℚ), 1, 2, 3].map id else [(0 : ℚ), 1, 2, 3])
        ∧ (∀ i j, i < child.genotypes.length →
            j < ([['A', 'A'], ['A', 'T'], ['T', 'A'], ['T', 'T']] : List Genotype).length →
            child.genotypes.getD i [] =
              ([['A', 'A'], ['A', 'T'], ['T', 'A'], ['T', 'T']] : List Genotype).getD j [] →
            child.phenotypes.getD i (0 : ℚ) =
              (if false then [(0 : ℚ), 1, 2, 3].map id else [(0 : ℚ), 1, 2, 3]).getD j 0))
    ∧ ((∃ g ∈ construct_genotypes (binary_mutations_map ['A', 'A'] ['T', 'T']),
          g ∉ [['A', 'A'], ['A', 'T'], ['T', 'A'], ['T', 'T']]) →
        ∃ e, ((construct (['A', 'A'] : Genotype)
            [['A', 'A'], ['A', 'T'], ['T', 'A'], ['T', 'T']] [(0 : ℚ), 1, 2, 3] none
            false (some [['A', 'T'], ['A', 'T']]) 1 id).bind (fun p =>
          subspace p ['A', 'A'] ['T', 'T'])) = Except.error e) :=
  c3_subspace_sublattice ['A', 'A'] ['A', 'A']
    [['A', 'T'], ['T', 'A'], ['T', 'T']] [(0 : ℚ), 1, 2, 3] none false
    [['A', 'T'], ['A', 'T']] 1 id ['A', 'A'] ['T', 'T'] 2 0
    (by simp) (by decide) (by decide)

end Gpm